import Mathlib

/-
Formal model of the rendering code in src/controller.py of the radar-display
repository.  Pure numeric computations of the Python source are embedded as
Lean functions: Python floats become exact rationals (for affine pixel
arithmetic) or reals (where trigonometry is involved), Python int becomes Int
or Nat, and a computation that can raise ZeroDivisionError is embedded as an
Option-valued function returning none exactly when the Python code raises.
Every definition is a direct transcription of the named lines of
src/controller.py.
-/

set_option maxHeartbeats 1000000

/-- Constant from controller.py line 43: LARGE = 25 (font height). -/
def LARGE : ℝ := 25

/-- Constant from controller.py line 47: AIRCRAFT_SIZE = 4. -/
def AIRCRAFT_SIZE : ℚ := 4

/-- Constant from controller.py line 74: cmsize = 15 (length of compass marks). -/
def cmsize : ℝ := 15

/-- Constant from controller.py line 50: PITCH_SCALE = 3.0. -/
def PITCH_SCALE : ℝ := 3

/-- Constant from controller.py line 662 (function bar): bar_start = 60. -/
def bar_start : ℚ := 60

/-- Constant from controller.py line 663 (function bar): bar_end = 240. -/
def bar_end : ℚ := 240

/-- Python division on rationals, modelling that a / b raises
ZeroDivisionError when b == 0: the result is none exactly in that case. -/
def pydiv (a b : ℚ) : Option ℚ := if b = 0 then none else some (a / b)

/-- Embedding of controller.py line 360 (function meter):
deg_per_value = (to_degree - from_degree) / (end_value - start_value).
Returns none when end_value == start_value, where the Python code raises
ZeroDivisionError. -/
def meter_deg_per_value (start_value end_value from_degree to_degree : ℚ) : Option ℚ :=
  pydiv (to_degree - from_degree) (end_value - start_value)

/-- Embedding of controller.py line 808 (function graph):
vl1_y = ypos + ysize - ysize * (value_line1 - minvalue) / (maxvalue - minvalue).
Python evaluates ysize * (value_line1 - minvalue) first and then divides; the
division raises ZeroDivisionError when maxvalue == minvalue, modelled as none.
Line 812 computes the same expression for value_line2. -/
def graph_value_line_y (ypos ysize value_line minvalue maxvalue : ℚ) : Option ℚ :=
  (pydiv (ysize * (value_line - minvalue)) (maxvalue - minvalue)).map
    (fun q => ypos + ysize - q)

/-- Embedding of controller.py lines 670-677 (function bar): the fill color
choice.  red == 0 selects DimGray before any threshold comparison. -/
def barColor (val yellow red : ℚ) : String :=
  if red = 0 then "DimGray"
  else if val ≥ red then "red"
  else if val ≥ yellow then "DarkOrange"
  else "green"

/-- Embedding of controller.py lines 678-683 (function bar): the right edge of
the filled rectangle.  The minval floor of line 678-679 is applied first; the
division of line 681 is guarded by the max_val != 0 test of line 680, so this
function is total. -/
def bar_xval (val max_val minval : ℚ) : ℚ :=
  let v := if val < minval then minval else val
  if max_val ≠ 0 then bar_start + (bar_end - bar_start) * v / max_val else bar_start

/-- Embedding of controller.py lines 214-219 (function aircraft): the x
coordinate of the altitude label anchor.  x is the glyph position as used at
line 215 (the value after the 0.9 calibration factor of lines 195-196), tsize
is the measured label width, screen_x is the global sizex. -/
def aircraftLabelX (x tsize screen_x : ℚ) : ℚ :=
  if tsize + x + 4 * AIRCRAFT_SIZE - 2 > screen_x then x - 4 * AIRCRAFT_SIZE - tsize
  else x + 4 * AIRCRAFT_SIZE + 1

/-- Embedding of controller.py lines 206-209 (function aircraft): the altitude
label text before the vertical-trend arrows are appended.  Python computes
"+" + str(abs(height)) when height >= 0 and "-" + str(abs(height)) otherwise. -/
def aircraftHeightText (height : ℤ) : String :=
  if height ≥ 0 then "+" ++ toString height.natAbs else "-" ++ toString height.natAbs

/-- Embedding of controller.py lines 235-239 (function modesaircraft): the
altitude label text before the vertical-trend arrows.  The sign character is
"+" only when height > 0 (strict), otherwise "-". -/
def modesHeightText (height : ℤ) : String :=
  if height > 0 then "+" ++ toString height.natAbs else "-" ++ toString height.natAbs

/-- Embedding of controller.py lines 838-849 (function graph), one iteration of
the sample loop: given the adjusted box (ypos, ysize after lines 799-803), the
value domain, the sample count len, the value x0 held by the loop variable x
before this iteration, the index i and the sample value v, returns the point
stored in lastpoint for this iteration.  Line 841 clamps y at the top edge;
line 843 tests y against the bottom edge but writes the clamp into x (the
Python source assigns x, not y), and that x is then overwritten by lines
845/848, so the bottom clamp is lost.  This dead write is kept as _xDead. -/
def graphSamplePoint (xpos xsize ypos ysize minvalue maxvalue : ℚ) (len : ℕ)
    (x0 : ℚ) (i : ℕ) (v : ℚ) : ℚ × ℚ :=
  let y1 : ℚ := ypos - 1 + ysize - ysize * (v - minvalue) / (maxvalue - minvalue)
  let y2 : ℚ := if y1 < ypos then ypos else y1
  let _xDead : ℚ := if y2 > ypos + ysize - 1 then ypos + ysize - 1 else x0
  let x2 : ℚ := if 1 ≤ i then xpos + i * xsize / ((len : ℚ) - 1) else xpos
  (x2, y2)

/-- Embedding of math.radians as used throughout controller.py: degrees to
radians. -/
noncomputable def radians (x : ℝ) : ℝ := x * Real.pi / 180

open Classical in
/-- Embedding of the Python builtin round on a real argument: round half to
even.  When the fractional part is exactly one half the result is the even one
of the two neighbouring integers; otherwise it is the nearest integer (which
Mathlib round computes, its half-up tie rule never firing in that case). -/
noncomputable def pyRound (x : ℝ) : ℤ :=
  if Int.fract x = 1 / 2 then (if Even ⌊x⌋ then ⌊x⌋ else ⌊x⌋ + 1) else round x

/-- Embedding of controller.py lines 83-86:
posn(angle, arm_length) = (round(cos(radians(angle)) * arm_length),
round(sin(radians(angle)) * arm_length)). -/
noncomputable def posn (angle arm_length : ℝ) : ℤ × ℤ :=
  (pyRound (Real.cos (radians angle) * arm_length),
   pyRound (Real.sin (radians angle) * arm_length))

/-- Embedding of controller.py lines 573-584 (function linepoints): the two
endpoints of a horizon-parallel line at a given pitch offset.  The globals
zerox, zeroy are passed as parameters.  Returns (ps, pe). -/
noncomputable def linepoints (pitch roll pitch_distance length zerox zeroy : ℝ) :
    (ℝ × ℝ) × (ℝ × ℝ) :=
  let s := Real.sin (radians (180 + roll))
  let c := Real.cos (radians (180 + roll))
  let dist := (-pitch + pitch_distance) * PITCH_SCALE
  let move := (dist * s, dist * c)
  let s1 := Real.sin (radians (-90 - roll))
  let c1 := Real.cos (radians (-90 - roll))
  let p1 := (zerox - length * s1, zeroy + length * c1)
  let p2 := (zerox + length * s1, zeroy - length * c1)
  ((p1.1 + move.1, p1.2 + move.2), (p2.1 + move.1, p2.2 + move.2))

open Classical in
/-- Embedding of controller.py lines 388-391 (function meter): the needle value
normalization.  current is replaced by end_value when above it, by start_value
when below it. -/
noncomputable def clampMeter (current start_value end_value : ℝ) : ℝ :=
  if current > end_value then end_value
  else if current < start_value then start_value
  else current

/-- Embedding of controller.py lines 360 and 388-392 (function meter): the
needle angle as a function of the current value, angle = deg_per_value *
(clamped current - start_value) + from_degree.  Stated over the reals; the
division is by end_value - start_value, nonzero on every gauge domain the
claims quantify over (the zero-domain behaviour is modelled separately by
meter_deg_per_value). -/
noncomputable def needleAngle (current start_value end_value from_degree to_degree : ℝ) : ℝ :=
  (to_degree - from_degree) / (end_value - start_value) *
    (clampMeter current start_value end_value - start_value) + from_degree

/-- Operations performed on the shared compass label mask, in order, in one
30-degree branch of the compass loop (controller.py lines 458-461): the mask
rectangle is cleared to black, then the mark text is drawn into it. -/
inductive MaskOp where
  | clearRect : MaskOp
  | drawText : String → MaskOp
deriving DecidableEq

/-- The data of one composited compass label: the ordered mask operations, the
angle handed to mask.rotate (degrees, counterclockwise per PIL), the paste
center (before the round and the -LARGE corner shift of line 464), and the
paste color. -/
structure LabelComposite where
  maskOps : List MaskOp
  rotation : ℝ
  centerX : ℝ
  centerY : ℝ
  color : String

/-- Embedding of controller.py lines 447-457: the label text of a 30-degree
compass step. -/
def compassMark (m : ℕ) : String :=
  if m = 0 then "N"
  else if m = 90 then "E"
  else if m = 180 then "S"
  else if m = 270 then "W"
  else toString (m / 10)

/-- Embedding of controller.py lines 446-457: the label color of a 30-degree
compass step (yellow for the cardinal points, white otherwise). -/
def compassColor (m : ℕ) : String :=
  if m = 0 ∨ m = 90 ∨ m = 180 ∨ m = 270 then "yellow" else "white"

/-- Embedding of controller.py lines 437-464 (function compass), the
30-degree-step branch for step m at the given heading: mask cleared (line 458)
then text drawn (line 461), mask rotated by -m + heading (line 462), pasted
centered at (zerox - R*cos(a), zeroy - R*sin(a)) with R = csize - cmsize -
LARGE/2 and a = radians(m - heading + 90) (lines 438-439 and 463). -/
noncomputable def compassLabel (zerox zeroy csize heading : ℝ) (m : ℕ) : LabelComposite :=
  { maskOps := [MaskOp.clearRect, MaskOp.drawText (compassMark m)]
    rotation := -(m : ℝ) + heading
    centerX := zerox - (csize - cmsize - LARGE / 2) *
      Real.cos (radians ((m : ℝ) - heading + 90))
    centerY := zeroy - (csize - cmsize - LARGE / 2) *
      Real.sin (radians ((m : ℝ) - heading + 90))
    color := compassColor m }

/-- Embedding of controller.py lines 366-371 (function meter), the small-marks
loop (the large-marks loop at lines 374-386 has the identical control shape):
starting at m, collect every value at which a tick is drawn, stepping by d
while m <= endv.  The guard 0 < d is part of the condition so that the
function is total; the Python loop does not terminate for d <= 0, and every
claim about it assumes a positive spacing. -/
def tickLoop (endv d m : ℚ) : List ℚ :=
  if h : 0 < d ∧ m ≤ endv then m :: tickLoop endv d (m + d) else []
termination_by (⌈(endv - m) / d⌉ + 1).toNat
decreasing_by
  have hd : (0:ℚ) < d := h.1
  have hm : m ≤ endv := h.2
  have hdne : d ≠ 0 := ne_of_gt hd
  have hnn : (0:ℚ) ≤ (endv - m) / d := div_nonneg (by linarith) (le_of_lt hd)
  have hsub : endv - (m + d) = (endv - m) - d := by ring
  have hstep : (endv - (m + d)) / d = (endv - m) / d - 1 := by
    rw [hsub, sub_div, div_self hdne]
  have hceil : ⌈(endv - (m + d)) / d⌉ = ⌈(endv - m) / d⌉ - 1 := by
    rw [hstep, show ((1:ℚ)) = ((1:ℤ):ℚ) by norm_num, Int.ceil_sub_int]
  have h0 : 0 ≤ ⌈(endv - m) / d⌉ := Int.ceil_nonneg hnn
  simp only [hceil]
  omega

/- ### Helper lemmas -/

/-- The height label texts agree on every nonzero height: both renderers pick
"+" for positive heights and "-" for negative ones. -/
theorem heightText_agree (h : ℤ) (hne : h ≠ 0) :
    aircraftHeightText h = modesHeightText h := by
  unfold aircraftHeightText modesHeightText
  rcases lt_or_gt_of_ne hne with hneg | hpos
  · rw [if_neg (by omega), if_neg (by omega)]
  · rw [if_pos (by omega), if_pos (by omega)]

/- ### C1 -/

/-- C1: the claim says every out-of-range sample has its y-pixel clamped to the
box edge, so the drawn y always lies in [ypos, ypos+ysize-1].  The code is
intended to do that (line 841 clamps the top edge, and line 842 tests the
bottom edge with the comment "if value is outside"), but line 843 assigns the
clamp to x instead of y, so a sample below minvalue is drawn below the box.
Concretely, with the box rows [0, 9] (ypos = 0, ysize = 10), domain [0, 100],
two samples, and sample value -50 at index 1, the stored point is (100, 14):
its y-coordinate 14 lies outside [0, 9]. -/
theorem graph_bottom_clamp_bug :
    graphSamplePoint 0 100 0 10 0 100 2 0 1 (-50) = (100, 14)
    ∧ (-50 : ℚ) < 0
    ∧ ¬ ((graphSamplePoint 0 100 0 10 0 100 2 0 1 (-50)).2 ≤ 0 + 10 - 1) := by
  refine ⟨?_, by norm_num, ?_⟩ <;> norm_num [graphSamplePoint]

/- ### C2 -/

/-- C2 counterexample: the claim says every division is guarded so that meter
and graph return normally on a zero-length domain.  In fact meter with
end_value == start_value hits the unguarded division of line 360 and graph
with maxvalue == minvalue hits the unguarded division of line 808; both raise
ZeroDivisionError, modelled here as none. -/
theorem zero_domain_crash_cex :
    meter_deg_per_value 5 5 120 420 = none
    ∧ graph_value_line_y 5 100 50 0 0 = none := by
  refine ⟨?_, ?_⟩ <;> simp [meter_deg_per_value, graph_value_line_y, pydiv]

/-- C2 amended: the divisions in meter (line 360) and graph (lines 808, 812)
are not guarded: a zero-length domain makes them raise ZeroDivisionError
(modelled as none), and they evaluate normally exactly when the domain has
nonzero length; only bar guards its division (line 680), returning bar_start
when max_val == 0. -/
theorem zero_domain_division_behavior :
    (∀ s e f t : ℚ, e = s → meter_deg_per_value s e f t = none)
    ∧ (∀ yp ys vl mn mx : ℚ, mx = mn → graph_value_line_y yp ys vl mn mx = none)
    ∧ (∀ s e f t : ℚ, e ≠ s → (meter_deg_per_value s e f t).isSome = true)
    ∧ (∀ yp ys vl mn mx : ℚ, mx ≠ mn → (graph_value_line_y yp ys vl mn mx).isSome = true)
    ∧ (∀ val minval : ℚ, bar_xval val 0 minval = bar_start) := by
  refine ⟨?_, ?_, ?_, ?_, ?_⟩
  · intro s e f t he
    simp [meter_deg_per_value, pydiv, he]
  · intro yp ys vl mn mx hmx
    simp [graph_value_line_y, pydiv, hmx]
  · intro s e f t he
    simp [meter_deg_per_value, pydiv, sub_eq_zero, he]
  · intro yp ys vl mn mx hmx
    simp [graph_value_line_y, pydiv, sub_eq_zero, hmx]
  · intro val minval
    simp [bar_xval]

/-- Witness for C2: the amended theorem applied at concrete inputs. -/
theorem zero_domain_division_behavior_witness :
    meter_deg_per_value 7 7 120 420 = none
    ∧ graph_value_line_y 5 100 50 3 3 = none
    ∧ (meter_deg_per_value (-3) 5 120 420).isSome = true
    ∧ (graph_value_line_y 5 100 50 0 120).isSome = true
    ∧ bar_xval 9 0 1 = bar_start :=
  ⟨zero_domain_division_behavior.1 7 7 120 420 rfl,
   zero_domain_division_behavior.2.1 5 100 50 3 3 rfl,
   zero_domain_division_behavior.2.2.1 (-3) 5 120 420 (by norm_num),
   zero_domain_division_behavior.2.2.2.1 5 100 50 0 120 (by norm_num),
   zero_domain_division_behavior.2.2.2.2 9 1⟩

/- ### C4 -/

/-- C4 counterexample: for bar(value=150, max_val=100, yellow=50, red=0) the
color is indeed the neutral DimGray, but the fill rectangle does not stop at
full bar width: its right edge is 330, not bar_end = 240 — the width formula
of line 681 has no saturation. -/
theorem bar_overflow_cex :
    barColor 150 50 0 = "DimGray"
    ∧ bar_xval 150 100 0 = 330
    ∧ bar_xval 150 100 0 ≠ bar_end := by
  refine ⟨rfl, by norm_num [bar_xval, bar_start, bar_end], ?_⟩
  norm_num [bar_xval, bar_start, bar_end]

/-- C4 amended: red == 0 makes the fill color DimGray regardless of the value
and the thresholds; but for value 150 and max_val 100 the width formula
bar_start + (bar_end - bar_start) * val / max_val yields 330, which is 90
pixels beyond bar_end = 240: the formula does not saturate, the fill extends
past the full bar width. -/
theorem bar_sentinel_and_overflow :
    (∀ val yellow : ℚ, barColor val yellow 0 = "DimGray")
    ∧ bar_xval 150 100 0 = 330
    ∧ bar_end < bar_xval 150 100 0 := by
  refine ⟨fun val yellow => rfl, ?_, ?_⟩ <;>
    norm_num [bar_xval, bar_start, bar_end]

/- ### C9 -/

/-- C9 counterexample: with screen width 100, glyph x = 35 and label width 50,
the claimed flip condition x + labelWidth + glyphOffset > screenWidth holds
for the glyph offset 4 * AIRCRAFT_SIZE = 16 (35 + 50 + 16 = 101 > 100), yet
the code places the label on the right at x + 4 * AIRCRAFT_SIZE + 1 = 52, not
on the left at x - glyphOffset - labelWidth = -31: the comparison of line 215
subtracts 2 from the offset. -/
theorem aircraft_label_flip_cex :
    (35 : ℚ) + 50 + 4 * AIRCRAFT_SIZE > 100
    ∧ aircraftLabelX 35 50 100 = 35 + 4 * AIRCRAFT_SIZE + 1
    ∧ aircraftLabelX 35 50 100 ≠ 35 - 4 * AIRCRAFT_SIZE - 50 := by
  refine ⟨by norm_num [AIRCRAFT_SIZE], ?_, ?_⟩ <;>
    norm_num [aircraftLabelX, AIRCRAFT_SIZE]

/-- C9 amended: the label anchor goes to the left side, at
x - 4 * AIRCRAFT_SIZE - labelWidth, exactly when
labelWidth + x + 4 * AIRCRAFT_SIZE - 2 > screenWidth (the code subtracts 2 in
the comparison), and otherwise to the right side at x + 4 * AIRCRAFT_SIZE + 1;
the two anchors are distinct for every nonnegative label width, so exactly one
of the two placements is used per call. -/
theorem aircraft_label_flip_characterization (x t six : ℚ) (ht : 0 ≤ t) :
    (t + x + 4 * AIRCRAFT_SIZE - 2 > six →
      aircraftLabelX x t six = x - 4 * AIRCRAFT_SIZE - t)
    ∧ (¬ (t + x + 4 * AIRCRAFT_SIZE - 2 > six) →
      aircraftLabelX x t six = x + 4 * AIRCRAFT_SIZE + 1)
    ∧ x - 4 * AIRCRAFT_SIZE - t ≠ x + 4 * AIRCRAFT_SIZE + 1 := by
  refine ⟨fun hc => if_pos hc, fun hc => if_neg hc, ?_⟩
  intro heq
  rw [AIRCRAFT_SIZE] at heq
  have : t = -33 := by linarith
  linarith

/-- Witness for C9: the amended characterization applied at a concrete input. -/
theorem aircraft_label_flip_witness :
    (0 : ℚ) ≤ 50
    ∧ (((50 : ℚ) + 35 + 4 * AIRCRAFT_SIZE - 2 > 100 →
        aircraftLabelX 35 50 100 = 35 - 4 * AIRCRAFT_SIZE - 50)
      ∧ (¬ ((50 : ℚ) + 35 + 4 * AIRCRAFT_SIZE - 2 > 100) →
        aircraftLabelX 35 50 100 = 35 + 4 * AIRCRAFT_SIZE + 1)
      ∧ (35 : ℚ) - 4 * AIRCRAFT_SIZE - 50 ≠ 35 + 4 * AIRCRAFT_SIZE + 1) :=
  ⟨by norm_num, aircraft_label_flip_characterization 35 50 100 (by norm_num)⟩

/- ### C10 -/

/-- C10: the two contact renderers disagree on the sign character exactly at
height 0: aircraft (line 206, height >= 0) renders "+0" while modesaircraft
(line 235, height > 0) renders "-0"; for every nonzero height the two labels
are identical. -/
theorem height_zero_sign_chars :
    aircraftHeightText 0 = "+0"
    ∧ modesHeightText 0 = "-0"
    ∧ ∀ h : ℤ, h ≠ 0 → aircraftHeightText h = modesHeightText h :=
  ⟨rfl, rfl, heightText_agree⟩

/-- Witness for C10: the nonzero-height clause applied at height 7. -/
theorem height_zero_sign_chars_witness :
    (7 : ℤ) ≠ 0 ∧ aircraftHeightText 7 = modesHeightText 7 :=
  ⟨by norm_num, height_zero_sign_chars.2.2 7 (by norm_num)⟩

/- ### C3 -/

/-- Membership in the tick list: for a positive spacing d, a value receives a
tick exactly when it is m + k * d for some natural k and does not exceed the
loop bound endv.  There is no epsilon slack in the bound. -/
theorem tickLoop_mem (endv d m x : ℚ) (hd : 0 < d) :
    x ∈ tickLoop endv d m ↔ ∃ k : ℕ, x = m + k * d ∧ x ≤ endv := by
  refine tickLoop.induct endv d
    (fun s => x ∈ tickLoop endv d s ↔ ∃ k : ℕ, x = s + k * d ∧ x ≤ endv) ?_ ?_ m
  case refine_1 =>
    intro n h ih
    rw [tickLoop, dif_pos h, List.mem_cons]
    constructor
    · rintro (rfl | hx)
      · exact ⟨0, by push_cast; ring, h.2⟩
      · obtain ⟨k, hk, hke⟩ := ih.mp hx
        exact ⟨k + 1, by rw [hk]; push_cast; ring, hke⟩
    · rintro ⟨k, rfl, hke⟩
      cases k with
      | zero => left; push_cast; ring
      | succ j =>
        right
        refine ih.mpr ⟨j, by push_cast; ring, hke⟩
  case refine_2 =>
    intro n h
    rw [tickLoop, dif_neg h]
    simp only [List.not_mem_nil, false_iff]
    rintro ⟨k, rfl, hke⟩
    have hme : ¬ n ≤ endv := fun hle => h ⟨hd, hle⟩
    have hkd : (0:ℚ) ≤ (k : ℚ) * d := by positivity
    exact hme (by linarith)

/-- C3 counterexample: with domain [0, 10] and spacing 3 (positive, start
below end, and 3 does not evenly divide 10), the ticks are exactly 0, 3, 6, 9:
the boundary value 10 receives no tick, contradicting the claim that the loop
bound carries an epsilon tolerance keeping the boundary value. -/
theorem tick_boundary_cex :
    (0 : ℚ) < 10 ∧ (0 : ℚ) < 3
    ∧ (¬ ∃ k : ℕ, (10 : ℚ) = 0 + k * 3)
    ∧ (10 : ℚ) ∉ tickLoop 10 3 0 := by
  have hno : ¬ ∃ k : ℕ, (10 : ℚ) = 0 + k * 3 := by
    rintro ⟨k, hk⟩
    rw [zero_add] at hk
    have hk2 : ((k * 3 : ℕ) : ℚ) = ((10 : ℕ) : ℚ) := by push_cast; linarith
    have := Nat.cast_injective hk2
    omega
  refine ⟨by norm_num, by norm_num, hno, ?_⟩
  intro hmem
  obtain ⟨k, hk, -⟩ := (tickLoop_mem 10 3 0 10 (by norm_num)).mp hmem
  exact hno ⟨k, hk⟩

/-- C3 amended: for every positive spacing d the ticks drawn by the meter loop
are exactly the values start + k * d that do not exceed end_value — the loop
bound is inclusive of end_value exactly, with no epsilon tolerance — and so
the boundary value end_value receives a tick if and only if the spacing
divides the domain exactly (end_value = start + k * d for some natural k);
when the spacing does not evenly divide the domain, the boundary value is
silently dropped. -/
theorem tick_values_characterization (start_value endv d : ℚ) (hd : 0 < d) :
    (∀ x : ℚ, x ∈ tickLoop endv d start_value ↔
      ∃ k : ℕ, x = start_value + k * d ∧ x ≤ endv)
    ∧ (endv ∈ tickLoop endv d start_value ↔
      ∃ k : ℕ, endv = start_value + k * d) := by
  refine ⟨fun x => tickLoop_mem endv d start_value x hd, ?_⟩
  rw [tickLoop_mem endv d start_value endv hd]
  constructor
  · rintro ⟨k, hk, -⟩
    exact ⟨k, hk⟩
  · rintro ⟨k, hk⟩
    exact ⟨k, hk, le_refl _⟩

/-- Witness for C3: the characterization applied to the domain [-3, 5] with
spacing 1/4, the spacing used by the g-meter gauge. -/
theorem tick_values_characterization_witness :
    (0 : ℚ) < 1 / 4
    ∧ (((5 : ℚ) ∈ tickLoop 5 (1 / 4) (-3)) ↔ ∃ k : ℕ, (5 : ℚ) = -3 + k * (1 / 4)) :=
  ⟨by norm_num, (tick_values_characterization (-3) 5 (1 / 4) (by norm_num)).2⟩

/- ### C5 -/

/-- On a nondegenerate domain the meter value normalization is the saturating
clamp max start (min end current). -/
theorem clampMeter_eq (s e c : ℝ) (hse : s ≤ e) :
    clampMeter c s e = max s (min e c) := by
  unfold clampMeter
  rcases lt_or_le e c with hce | hce
  · rw [if_pos hce, min_eq_left (le_of_lt hce), max_eq_right hse]
  · rw [if_neg (not_lt.mpr hce), min_eq_right hce]
    rcases lt_or_le c s with hcs | hcs
    · rw [if_pos hcs, max_eq_left (le_of_lt hcs)]
    · rw [if_neg (not_lt.mpr hcs), max_eq_right hcs]

/-- The needle angle written through the saturating clamp. -/
theorem needleAngle_eq (s e f t c : ℝ) (hse : s ≤ e) :
    needleAngle c s e f t = (t - f) / (e - s) * (max s (min e c) - s) + f := by
  unfold needleAngle
  rw [clampMeter_eq s e c hse]

/-- C5: on a gauge domain with start < end and from_degree < to_degree the
needle angle is a monotone (non-decreasing) and continuous function of the
current value, and it saturates: every current value below start_value gets
the angle of start_value and every current value above end_value gets the
angle of end_value (the value is clamped at lines 388-391 before the angle
computation of line 392). -/
theorem needle_angle_monotone_continuous_saturating (s e f t : ℝ)
    (hse : s < e) (hft : f < t) :
    Monotone (fun c => needleAngle c s e f t)
    ∧ Continuous (fun c => needleAngle c s e f t)
    ∧ (∀ c, c < s → needleAngle c s e f t = needleAngle s s e f t)
    ∧ (∀ c, c > e → needleAngle c s e f t = needleAngle e s e f t) := by
  have hse' : s ≤ e := le_of_lt hse
  have hdpv : 0 ≤ (t - f) / (e - s) := by
    apply div_nonneg <;> linarith
  refine ⟨?_, ?_, ?_, ?_⟩
  · intro a b hab
    simp only [needleAngle_eq s e f t _ hse']
    have hmono : max s (min e a) ≤ max s (min e b) :=
      max_le_max le_rfl (min_le_min le_rfl hab)
    have := mul_le_mul_of_nonneg_left (sub_le_sub_right hmono s) hdpv
    linarith
  · have hcont : Continuous fun c : ℝ =>
        (t - f) / (e - s) * (max s (min e c) - s) + f := by
      fun_prop
    refine hcont.congr ?_
    intro c
    rw [needleAngle_eq s e f t c hse']
  · intro c hcs
    unfold needleAngle clampMeter
    rw [if_neg (by linarith), if_pos hcs, if_neg (by linarith), if_neg (by linarith)]
  · intro c hce
    unfold needleAngle clampMeter
    rw [if_pos hce, if_neg (by linarith), if_neg (by linarith)]

/-- Witness for C5: the needle properties on the g-meter domain [-3, 5] with
angular domain [120, 420]. -/
theorem needle_angle_witness :
    (-3 : ℝ) < 5 ∧ (120 : ℝ) < 420
    ∧ (Monotone (fun c => needleAngle c (-3) 5 120 420)
      ∧ Continuous (fun c => needleAngle c (-3) 5 120 420)
      ∧ (∀ c, c < -3 → needleAngle c (-3) 5 120 420 = needleAngle (-3) (-3) 5 120 420)
      ∧ (∀ c, c > 5 → needleAngle c (-3) 5 120 420 = needleAngle 5 (-3) 5 120 420)) :=
  ⟨by norm_num, by norm_num,
   needle_angle_monotone_continuous_saturating (-3) 5 120 420 (by norm_num) (by norm_num)⟩

/- ### C6 -/

/-- Python round-half-to-even never differs from the real argument by more
than one half: it rounds to a nearest integer, never truncates. -/
theorem pyRound_nearest (x : ℝ) : |x - (pyRound x : ℝ)| ≤ 1 / 2 := by
  unfold pyRound
  split_ifs with h1 h2
  · have hx : x - (⌊x⌋ : ℝ) = 1 / 2 := by
      rw [Int.self_sub_floor]
      exact h1
    rw [hx, abs_of_nonneg (by norm_num)]
  · have hx : x - (⌊x⌋ : ℝ) = 1 / 2 := by
      rw [Int.self_sub_floor]
      exact h1
    have : x - ((⌊x⌋ + 1 : ℤ) : ℝ) = -(1 / 2) := by
      push_cast
      linarith
    rw [this, abs_neg, abs_of_nonneg (by norm_num)]
  · exact abs_sub_round x

/-- Adding a full turn in degrees adds 2 pi radians. -/
theorem radians_add_360 (x : ℝ) : radians (x + 360) = radians x + 2 * Real.pi := by
  unfold radians
  ring

/-- C6: posn computes the offsets by rounding cos(radians angle) * r and
sin(radians angle) * r to a nearest integer (each coordinate differs from the
exact real value by at most one half pixel, so it is rounding, not
truncation), and it is 360-degree periodic: posn (angle + 360) r = posn angle
r exactly. -/
theorem posn_round_and_periodic (angle r : ℝ) :
    posn (angle + 360) r = posn angle r
    ∧ |Real.cos (radians angle) * r - ((posn angle r).1 : ℝ)| ≤ 1 / 2
    ∧ |Real.sin (radians angle) * r - ((posn angle r).2 : ℝ)| ≤ 1 / 2 := by
  refine ⟨?_, pyRound_nearest _, pyRound_nearest _⟩
  unfold posn
  rw [radians_add_360, Real.cos_add_two_pi, Real.sin_add_two_pi]

/- ### C7 -/

/-- C7: at pitch = 0, roll = 0, pitch_distance = 0 the two endpoints returned
by linepoints are symmetric about the screen center on the horizontal axis:
both y coordinates equal zeroy and the two x coordinates sum to 2 * zerox. -/
theorem horizon_endpoints_symmetric (length zerox zeroy : ℝ) :
    (linepoints 0 0 0 length zerox zeroy).1.2 = zeroy
    ∧ (linepoints 0 0 0 length zerox zeroy).2.2 = zeroy
    ∧ (linepoints 0 0 0 length zerox zeroy).1.1
      + (linepoints 0 0 0 length zerox zeroy).2.1 = 2 * zerox := by
  have h180 : radians (180 + 0) = Real.pi := by
    unfold radians
    ring
  have hm90 : radians (-90 - 0) = -(Real.pi / 2) := by
    unfold radians
    ring
  have hsin : Real.sin (radians (180 + 0)) = 0 := by
    rw [h180, Real.sin_pi]
  have hcos : Real.cos (radians (180 + 0)) = -1 := by
    rw [h180, Real.cos_pi]
  have hsin1 : Real.sin (radians (-90 - 0)) = -1 := by
    rw [hm90, Real.sin_neg, Real.sin_pi_div_two]
  have hcos1 : Real.cos (radians (-90 - 0)) = 0 := by
    rw [hm90, Real.cos_neg, Real.cos_pi_div_two]
  refine ⟨?_, ?_, ?_⟩ <;>
    simp only [linepoints, hsin, hcos, hsin1, hcos1] <;> ring

/- ### C8 -/

/-- C8: for every heading and every 30-degree step m the label composite
clears the mask and then redraws the label into it (maskOps in that order),
hands mask.rotate the angle -m + heading = heading - m (degrees,
counterclockwise per PIL), and anchors the paste center by the polar
convention at angle m - heading + 90 along radius csize - cmsize - LARGE/2.
In particular at heading 0 the bearing-0 label is composited un-rotated
(rotation 0) at the top of the ring (centerX = zerox, centerY = zeroy minus
the radius), and at heading 90 it is composited with rotation angle 90 --
that is, rotated 90 degrees counterclockwise, i.e. by -90 in the
clockwise-positive orientation convention of headings -- with its anchor
exactly where the bearing-270 label sat at heading 0. -/
theorem compass_label_rotation_anchor (zerox zeroy csize heading : ℝ) (m : ℕ)
    (hm : m % 30 = 0) :
    ((compassLabel zerox zeroy csize heading m).maskOps
        = [MaskOp.clearRect, MaskOp.drawText (compassMark m)]
      ∧ (compassLabel zerox zeroy csize heading m).rotation = heading - (m : ℝ)
      ∧ (compassLabel zerox zeroy csize heading m).centerX
          = zerox - (csize - cmsize - LARGE / 2)
            * Real.cos (radians ((m : ℝ) - heading + 90))
      ∧ (compassLabel zerox zeroy csize heading m).centerY
          = zeroy - (csize - cmsize - LARGE / 2)
            * Real.sin (radians ((m : ℝ) - heading + 90)))
    ∧ ((compassLabel zerox zeroy csize 0 0).rotation = 0
      ∧ (compassLabel zerox zeroy csize 0 0).centerX = zerox
      ∧ (compassLabel zerox zeroy csize 0 0).centerY
          = zeroy - (csize - cmsize - LARGE / 2))
    ∧ ((compassLabel zerox zeroy csize 90 0).rotation = 90
      ∧ (compassLabel zerox zeroy csize 90 0).centerX
          = (compassLabel zerox zeroy csize 0 270).centerX
      ∧ (compassLabel zerox zeroy csize 90 0).centerY
          = (compassLabel zerox zeroy csize 0 270).centerY) := by
  have hr90 : radians 90 = Real.pi / 2 := by
    unfold radians
    ring
  have hc90 : Real.cos (radians 90) = 0 := by rw [hr90, Real.cos_pi_div_two]
  have hs90 : Real.sin (radians 90) = 1 := by rw [hr90, Real.sin_pi_div_two]
  have hr0 : radians 0 = 0 := by
    unfold radians
    ring
  have hc0 : Real.cos (radians 0) = 1 := by rw [hr0, Real.cos_zero]
  have hs0 : Real.sin (radians 0) = 0 := by rw [hr0, Real.sin_zero]
  have hr360 : radians 360 = 2 * Real.pi := by
    unfold radians
    ring
  have hc360 : Real.cos (radians 360) = 1 := by rw [hr360, Real.cos_two_pi]
  have hs360 : Real.sin (radians 360) = 0 := by rw [hr360, Real.sin_two_pi]
  refine ⟨⟨rfl, ?_, rfl, rfl⟩, ⟨?_, ?_, ?_⟩, ⟨?_, ?_, ?_⟩⟩
  · show -(m : ℝ) + heading = heading - (m : ℝ)
    ring
  · simp [compassLabel]
  · norm_num [compassLabel, hc90]
  · norm_num [compassLabel, hs90]
  · simp [compassLabel]
  · norm_num [compassLabel, hc0, hc360]
  · norm_num [compassLabel, hs0, hs360]

/-- Witness for C8: the theorem applied at heading 7 and step m = 30. -/
theorem compass_label_rotation_anchor_witness :
    30 % 30 = 0
    ∧ (compassLabel 0 0 100 7 30).rotation = 7 - ((30 : ℕ) : ℝ) :=
  ⟨by norm_num, (compass_label_rotation_anchor 0 0 100 7 30 (by norm_num)).1.2.1⟩
